import Mathlib

/-
Verification of the PMI sentiment-scoring pipeline of run_pmi_reddit.py.

The pipeline is embedded shallowly:
  * a document is `Option String` (the `comment` column; `none` is a null);
  * row cleaning (lines 45-48), text normalization and tokenization
    (lines 52-63), stopword removal (lines 68-70) and the word filters
    (lines 76-92) become functions producing the token stream
    `clean_words_df`;
  * the frequency tables (lines 94-144) become count functions over the
    token stream: a Spark `groupBy(w).count()` row for `w` holds exactly
    `count w` of the grouped stream, and a left join with `na.fill(0)`
    yields the count in the filtered stream (0 when the word is absent
    from it);
  * the PMI columns (lines 150-177) become real-valued functions using
    `Real.logb 2`;
  * the `orderBy ... limit` ranking (lines 183-211) becomes
    `mergeSort`/`take`.
The stopword list lives in Spark, not in this repository, so every
pipeline function is parametric in the stopword list `sw`.
-/

namespace PmiReddit

/-! ### Fixed word lists (run_pmi_reddit.py lines 76-118 and 186-194) -/

/-- custom_noise_words, run_pmi_reddit.py lines 76-82 (the duplicate
"thats" of the source is kept). -/
def customNoiseWords : List String :=
  ["im", "ive", "dont", "didnt", "thats", "theres", "cant", "doesnt",
   "also", "really", "much", "many", "one", "even", "still", "lot",
   "way", "got", "get", "going", "go", "say", "see", "know", "think",
   "", "would", "could", "just", "like", "game", "games", "play",
   "played", "playing", "its", "thats", "youre", "theyre", "weve"]

/-- positive_words, run_pmi_reddit.py lines 108-112. -/
def positiveWords : List String :=
  ["good", "great", "love", "amazing", "fun", "best",
   "better", "awesome", "excellent", "beautiful", "perfect",
   "incredible", "fantastic", "wonderful", "enjoy", "enjoyed"]

/-- negative_words, run_pmi_reddit.py lines 114-118. -/
def negativeWords : List String :=
  ["bad", "terrible", "awful", "worst", "boring",
   "hate", "issue", "problem", "disappointing", "broken",
   "bug", "bugs", "glitch", "crash", "frustrating", "repetitive"]

/-- ambiguous_words, run_pmi_reddit.py lines 186-194. -/
def ambiguousWords : List String :=
  ["never", "since", "think", "going", "way", "say", "something", "put",
   "actually", "still", "see", "odyssey", "shadows", "assassin", "creed",
   "understand", "buy", "japanese", "thing", "video", "channel",
   "missions", "much", "want", "know", "people", "ubisoft", "naoe", "yasuke",
   "time", "first", "new", "world", "feel", "combat", "stealth", "series",
   "make", "well", "main", "hours", "feels", "back", "japan", "story",
   "character", "characters", "graphics", "gameplay"]

/-! ### Text normalization (run_pmi_reddit.py lines 45-63) -/

/-- The character class `[a-zA-Z]` of the regex on line 55. -/
def isAsciiAlpha (c : Char) : Bool :=
  (('a' ≤ c) && (c ≤ 'z')) || (('A' ≤ c) && (c ≤ 'Z'))

/-- The Java regex class `\s`, used by `[^a-zA-Z\s]` (line 55) and by the
split pattern `\s+` (line 62). -/
def isJavaSpace (c : Char) : Bool :=
  c == ' ' || c == '\t' || c == '\n' || c == '\x0b' || c == '\x0c' || c == '\r'

/-- regexp_replace(comment, "[^a-zA-Z\\s]", " ") of line 55: every
character outside `[a-zA-Z\s]` becomes one space. -/
def stripNonAlpha (s : String) : String :=
  String.mk (s.data.map fun c => if isAsciiAlpha c || isJavaSpace c then c else ' ')

/-- lower(...) of line 54. -/
def lowerText (s : String) : String :=
  String.mk (s.data.map Char.toLower)

/-- Spark `trim` (line 62) removes leading and trailing space characters
(0x20 only). -/
def trimSpaces (s : String) : String :=
  String.mk (((s.data.dropWhile fun c => c == ' ').reverse.dropWhile
    fun c => c == ' ').reverse)

/-- Java `split` on the pattern `\s+` (line 62): the segments between
maximal whitespace runs; an empty input yields `[""]`, an input starting
with whitespace yields a leading `""`, and trailing empty segments are
removed. -/
def splitWhitespace (s : String) : List String :=
  match s.data with
  | [] => [""]
  | c :: _ =>
    let fields := ((List.splitOnP isJavaSpace s.data).filter
      fun t => !t.isEmpty).map String.mk
    if isJavaSpace c then "" :: fields else fields

/-- The token column of one row (lines 52-63): lowercase the
alpha-stripped comment, trim, split on whitespace. -/
def tokenize (comment : String) : List String :=
  splitWhitespace (trimSpaces (lowerText (stripNonAlpha comment)))

/-- StopWordsRemover (lines 69-70): drops tokens whose lowercase form is
in the stopword list (the default matcher is case-insensitive). -/
def removeStop (sw : List String) (toks : List String) : List String :=
  toks.filter fun t => !(sw.contains (lowerText t))

/-- Spark `rlike` with a literal pattern (lines 89-91) is substring
containment. -/
def containsPat (w pat : String) : Bool :=
  decide (pat.data <:+: w.data)

/-- The word-level filters of clean_words_df (lines 87-91): not a custom
noise word, length > 2, and no "http" / "www" / "https" fragment. -/
def keepWord (w : String) : Bool :=
  !(customNoiseWords.contains w) && decide (2 < w.length) &&
    !(containsPat w "http") && !(containsPat w "www") && !(containsPat w "https")

/-- df_clean (lines 45-48): rows whose comment is non-null and longer
than 20 characters. -/
def cleanRows (docs : List (Option String)) : List String :=
  (docs.filterMap id).filter fun c => decide (20 < c.length)

/-- clean_words_df (lines 84-92): tokenize each surviving row, remove
stopwords per row, explode, then apply the word-level filters. -/
def cleanWords (sw : List String) (docs : List (Option String)) : List String :=
  (((cleanRows docs).map fun c => removeStop sw (tokenize c)).flatten).filter keepWord

/-! ### Frequency aggregation (run_pmi_reddit.py lines 94-148) -/

/-- groupBy("word").count() over a token stream: one row per distinct
word, carrying its number of occurrences. -/
def groupCount (l : List String) : List (String × Nat) :=
  l.dedup.map fun w => (w, l.count w)

/-- context_count (lines 123-128): the joined value for word `w`. -/
def contextCount (ws : List String) (w : String) : Nat :=
  ws.count w

/-- The filter `col("word").isin(lex)` of pos_counts / neg_counts
(lines 130-144). -/
def lexFiltered (lex ws : List String) : List String :=
  ws.filter fun t => lex.contains t

/-- pos_count / neg_count after the left join and `na.fill(0)`
(lines 155-157): the count of `w` in the lexicon-filtered stream, which
is 0 exactly when `w` is absent from that grouped table. -/
def lexCount (lex ws : List String) (w : String) : Nat :=
  (lexFiltered lex ws).count w

/-- total_tokens = clean_words_df.count() (line 120). -/
def totalTokens (ws : List String) : Nat :=
  ws.length

/-- total_pos / total_neg (lines 146-147): the summed lexicon counts,
with Python `or 1` turning an empty (null) sum into 1; the sum over the
grouped table equals the length of the filtered stream, and it is 0
exactly when that table is empty. -/
def lexTotal (lex ws : List String) : Nat :=
  let s := (lexFiltered lex ws).length
  if s = 0 then 1 else s

/-- One row of pmi_df before the score columns (lines 153-157): word,
context_count, and the two null-filled lexicon counts. -/
structure PmiRow where
  word : String
  context_count : Nat
  pos_count : Nat
  neg_count : Nat
  deriving DecidableEq, Repr

/-- pmi_df rows (lines 153-157): word_counts left-joined with pos_counts
and neg_counts, nulls filled with 0. -/
def pmiRows (ws : List String) : List PmiRow :=
  (groupCount ws).map fun p =>
    ⟨p.1, p.2, lexCount positiveWords ws p.1, lexCount negativeWords ws p.1⟩

/-! ### PMI scoring (run_pmi_reddit.py lines 150-177) -/

/-- alpha, the smoothing factor (line 151). -/
def alpha : Nat := 1

/-- pmi_positive (lines 158-168): with `p_w_pos_s = (pos_count + alpha) / N`,
`p_w = context_count / N` and `p_pos = total_pos / N`, the column is
`log2(p_w_pos_s / (p_w * p_pos))`.  Parametric in the positive lexicon so
that the lexicon-swap property can be stated. -/
noncomputable def pmiPositive (pos ws : List String) (w : String) : ℝ :=
  Real.logb 2 ((((lexCount pos ws w : ℝ) + (alpha : ℝ)) / (totalTokens ws : ℝ)) /
    (((contextCount ws w : ℝ) / (totalTokens ws : ℝ)) *
      ((lexTotal pos ws : ℝ) / (totalTokens ws : ℝ))))

/-- pmi_negative (lines 159-172), the mirror column built from the
negative lexicon. -/
noncomputable def pmiNegative (neg ws : List String) (w : String) : ℝ :=
  Real.logb 2 ((((lexCount neg ws w : ℝ) + (alpha : ℝ)) / (totalTokens ws : ℝ)) /
    (((contextCount ws w : ℝ) / (totalTokens ws : ℝ)) *
      ((lexTotal neg ws : ℝ) / (totalTokens ws : ℝ))))

/-- sentiment_score = pmi_positive - pmi_negative (lines 173-176). -/
noncomputable def sentimentScore (pos neg ws : List String) (w : String) : ℝ :=
  pmiPositive pos ws w - pmiNegative neg ws w

/-! ### Filtering and ranking (run_pmi_reddit.py lines 183-220) -/

/-- pmi_filtered (lines 183-195): context_count >= 5 and the word is not
in the ambiguous list. -/
def pmiFiltered (ws : List String) : List PmiRow :=
  (pmiRows ws).filter fun r =>
    decide (5 ≤ r.context_count) && !(ambiguousWords.contains r.word)

/-- One row of the selected output columns (word, context_count,
sentiment_score) of lines 200 and 208. -/
structure OutRow where
  word : String
  context_count : Nat
  sentiment_score : ℝ

/-- The sentiment_score carried by a pmi_df row, with the fixed lexicons
of the script. -/
noncomputable def scoreOf (ws : List String) (r : PmiRow) : ℝ :=
  sentimentScore positiveWords negativeWords ws r.word

/-- top_pos (lines 198-202): order by sentiment_score descending, keep
the selected columns, limit 10. -/
noncomputable def rankPos (ws : List String) : List OutRow :=
  (((pmiFiltered ws).mergeSort fun a b =>
      decide (scoreOf ws b ≤ scoreOf ws a)).take 10).map
    fun r => ⟨r.word, r.context_count, scoreOf ws r⟩

/-- top_neg (lines 206-210): order by sentiment_score ascending,
limit 10. -/
noncomputable def rankNeg (ws : List String) : List OutRow :=
  (((pmiFiltered ws).mergeSort fun a b =>
      decide (scoreOf ws a ≤ scoreOf ws b)).take 10).map
    fun r => ⟨r.word, r.context_count, scoreOf ws r⟩

/-- The positive output table of the whole pipeline, from the raw rows. -/
noncomputable def topPos (sw : List String) (docs : List (Option String)) : List OutRow :=
  rankPos (cleanWords sw docs)

/-- The negative output table of the whole pipeline, from the raw rows. -/
noncomputable def topNeg (sw : List String) (docs : List (Option String)) : List OutRow :=
  rankNeg (cleanWords sw docs)

/-- word_freq_clean limited to 100 rows (lines 94-99 and 220): the
grouped counts ordered by count descending, first 100. -/
def wordFreqTop (sw : List String) (docs : List (Option String)) : List (String × Nat) :=
  ((groupCount (cleanWords sw docs)).mergeSort fun a b => decide (b.2 ≤ a.2)).take 100

/-! ### Spec-side totals

The spec describes `N` as the sum of all context_counts and `P`, `Q` as
the sums of the pos_count / neg_count tables (each defaulting to 1 when
zero), while the script computes `total_tokens` as a stream length
(line 120).  These definitions follow the spec's words; the lemmas below
show they coincide with the script's totals. -/

/-- Spec-side N: the sum of all context_counts. -/
def specN (ws : List String) : Nat :=
  ((pmiRows ws).map PmiRow.context_count).sum

/-- Spec-side P: the sum of all pos_counts, defaulting to 1 if zero. -/
def specP (ws : List String) : Nat :=
  let s := ((groupCount (lexFiltered positiveWords ws)).map Prod.snd).sum
  if s = 0 then 1 else s

/-- Spec-side Q: the sum of all neg_counts, defaulting to 1 if zero. -/
def specQ (ws : List String) : Nat :=
  let s := ((groupCount (lexFiltered negativeWords ws)).map Prod.snd).sum
  if s = 0 then 1 else s

/-! ### Helper lemmas -/

/-- The counts of a grouped table sum to the length of the grouped
stream. -/
lemma sum_groupCount (l : List String) :
    ((groupCount l).map Prod.snd).sum = l.length := by
  unfold groupCount
  rw [List.map_map]
  exact List.sum_map_count_dedup_eq_length l

lemma specN_eq (ws : List String) : specN ws = totalTokens ws := by
  have h : (pmiRows ws).map PmiRow.context_count = (groupCount ws).map Prod.snd := by
    unfold pmiRows
    rw [List.map_map]
    rfl
  unfold specN totalTokens
  rw [h, sum_groupCount]

lemma specP_eq (ws : List String) : specP ws = lexTotal positiveWords ws := by
  unfold specP lexTotal
  rw [sum_groupCount]

lemma specQ_eq (ws : List String) : specQ ws = lexTotal negativeWords ws := by
  unfold specQ lexTotal
  rw [sum_groupCount]

/-- Membership in pmi_df decomposed: every row comes from a distinct
word of the stream, with the three joined counts. -/
lemma mem_pmiRows {ws : List String} {r : PmiRow} (h : r ∈ pmiRows ws) :
    ∃ w, w ∈ ws.dedup ∧
      r = ⟨w, ws.count w, lexCount positiveWords ws w, lexCount negativeWords ws w⟩ := by
  unfold pmiRows groupCount at h
  rw [List.map_map] at h
  rcases List.mem_map.1 h with ⟨w, hw, rfl⟩
  exact ⟨w, hw, rfl⟩

/-! ### Shared concrete inputs for witnesses -/

/-- A tiny token stream: one positive seed word and one neutral word. -/
def c1ws : List String := ["good", "ball"]

/-- The pmi_df row of "good" in `c1ws`. -/
def c1row : PmiRow := ⟨"good", 1, 1, 0⟩

/-! ### Claims -/

/-- C1: for every token of the aggregated pmi_df table, with c, p, n its
joined counts, N the sum of all context_counts, P and Q the sums of the
pos_count / neg_count tables (defaulting to 1 if zero) and alpha = 1,
the computed sentiment_score equals
log2(((p+alpha)/N) / ((c/N)*(P/N))) - log2(((n+alpha)/N) / ((c/N)*(Q/N))). -/
theorem C1_sentiment_score_formula (ws : List String) (r : PmiRow)
    (h : r ∈ pmiRows ws) :
    sentimentScore positiveWords negativeWords ws r.word =
      Real.logb 2 ((((r.pos_count : ℝ) + 1) / (specN ws : ℝ)) /
          (((r.context_count : ℝ) / (specN ws : ℝ)) *
            ((specP ws : ℝ) / (specN ws : ℝ)))) -
      Real.logb 2 ((((r.neg_count : ℝ) + 1) / (specN ws : ℝ)) /
          (((r.context_count : ℝ) / (specN ws : ℝ)) *
            ((specQ ws : ℝ) / (specN ws : ℝ)))) := by
  rcases mem_pmiRows h with ⟨w, hw, rfl⟩
  rw [specN_eq, specP_eq, specQ_eq]
  unfold sentimentScore pmiPositive pmiNegative alpha
  norm_num
  rfl

/-- Witness for C1 at the concrete stream `c1ws` and its row for
"good". -/
theorem C1_sentiment_score_formula_witness :
    c1row ∈ pmiRows c1ws ∧
    sentimentScore positiveWords negativeWords c1ws c1row.word =
      Real.logb 2 ((((c1row.pos_count : ℝ) + 1) / (specN c1ws : ℝ)) /
          (((c1row.context_count : ℝ) / (specN c1ws : ℝ)) *
            ((specP c1ws : ℝ) / (specN c1ws : ℝ)))) -
      Real.logb 2 ((((c1row.neg_count : ℝ) + 1) / (specN c1ws : ℝ)) /
          (((c1row.context_count : ℝ) / (specN c1ws : ℝ)) *
            ((specQ c1ws : ℝ) / (specN c1ws : ℝ)))) :=
  ⟨by decide, C1_sentiment_score_formula c1ws c1row (by decide)⟩

/-- C3: scoring with the positive and negative seed lexicons swapped
yields the negated sentiment_score for every corpus and token. -/
theorem C3_lexicon_swap_negates (ws : List String) (w : String) :
    sentimentScore negativeWords positiveWords ws w =
      -(sentimentScore positiveWords negativeWords ws w) := by
  have h1 : pmiPositive negativeWords ws w = pmiNegative negativeWords ws w := rfl
  have h2 : pmiNegative positiveWords ws w = pmiPositive positiveWords ws w := rfl
  unfold sentimentScore
  rw [h1, h2]
  ring

/-- C4: context_count dominates max(pos_count, neg_count), and every
token present in the pos_count or neg_count tables is a key of the
word_counts table. -/
theorem C4_context_count_dominates (ws : List String) (w : String) :
    max (lexCount positiveWords ws w) (lexCount negativeWords ws w) ≤
      contextCount ws w ∧
    ((0 < lexCount positiveWords ws w ∨ 0 < lexCount negativeWords ws w) →
      w ∈ (groupCount ws).map Prod.fst) := by
  have hp : lexCount positiveWords ws w ≤ contextCount ws w :=
    (List.filter_sublist ws).count_le w
  have hn : lexCount negativeWords ws w ≤ contextCount ws w :=
    (List.filter_sublist ws).count_le w
  refine ⟨max_le hp hn, fun h0 => ?_⟩
  have hc : 0 < contextCount ws w := by
    rcases h0 with h | h
    · exact lt_of_lt_of_le h hp
    · exact lt_of_lt_of_le h hn
  have hfst : (groupCount ws).map Prod.fst = ws.dedup := by
    unfold groupCount
    rw [List.map_map]
    exact List.map_id ws.dedup
  rw [hfst]
  exact List.mem_dedup.2 (List.count_pos_iff.1 hc)

/-- Witness for C4 at a one-token stream containing a seed word. -/
theorem C4_context_count_dominates_witness :
    0 < lexCount positiveWords ["good"] "good" ∧
    max (lexCount positiveWords ["good"] "good")
      (lexCount negativeWords ["good"] "good") ≤ contextCount ["good"] "good" ∧
    "good" ∈ (groupCount ["good"]).map Prod.fst :=
  ⟨by decide, (C4_context_count_dominates ["good"] "good").1,
    (C4_context_count_dominates ["good"] "good").2 (Or.inl (by decide))⟩

/-- C5: every row reaching the PMI division has context_count > 0, and
the lexicon totals used as divisor factors are at least 1. -/
theorem C5_no_division_by_zero (ws : List String) (r : PmiRow)
    (h : r ∈ pmiRows ws) :
    0 < r.context_count ∧ 1 ≤ lexTotal positiveWords ws ∧
      1 ≤ lexTotal negativeWords ws := by
  have hTot : ∀ lex : List String, 1 ≤ lexTotal lex ws := by
    intro lex
    by_cases hs : (lexFiltered lex ws).length = 0
    · simp [lexTotal, hs]
    · simp only [lexTotal, if_neg hs]
      omega
  rcases mem_pmiRows h with ⟨w, hw, rfl⟩
  exact ⟨List.count_pos_iff.2 (List.mem_dedup.1 hw), hTot _, hTot _⟩

/-- Witness for C5 at the concrete stream `c1ws`. -/
theorem C5_no_division_by_zero_witness :
    c1row ∈ pmiRows c1ws ∧
    (0 < c1row.context_count ∧ 1 ≤ lexTotal positiveWords c1ws ∧
      1 ≤ lexTotal negativeWords c1ws) :=
  ⟨by decide, C5_no_division_by_zero c1ws c1row (by decide)⟩

/-! ### Ranking helper lemmas -/

lemma mergeSort_single {α : Type} (le : α → α → Bool) (a : α) :
    List.mergeSort [a] le = [a] :=
  List.perm_singleton.1 (List.mergeSort_perm [a] le)

/-- Every output row of the positive ranking descends from a row of the
filtered table with the same context_count. -/
lemma rankPos_from_filtered (ws : List String) {row : OutRow}
    (h : row ∈ rankPos ws) :
    ∃ r ∈ pmiFiltered ws, row.context_count = r.context_count := by
  unfold rankPos at h
  rcases List.mem_map.1 h with ⟨r, hr, rfl⟩
  exact ⟨r, List.mem_mergeSort.1 (List.take_subset _ _ hr), rfl⟩

/-- Every output row of the negative ranking descends from a row of the
filtered table with the same context_count. -/
lemma rankNeg_from_filtered (ws : List String) {row : OutRow}
    (h : row ∈ rankNeg ws) :
    ∃ r ∈ pmiFiltered ws, row.context_count = r.context_count := by
  unfold rankNeg at h
  rcases List.mem_map.1 h with ⟨r, hr, rfl⟩
  exact ⟨r, List.mem_mergeSort.1 (List.take_subset _ _ hr), rfl⟩

/-- Rows of the filtered table satisfy the frequency floor. -/
lemma pmiFiltered_floor {ws : List String} {r : PmiRow}
    (h : r ∈ pmiFiltered ws) : 5 ≤ r.context_count := by
  unfold pmiFiltered at h
  have hb := (List.mem_filter.1 h).2
  simp only [Bool.and_eq_true, decide_eq_true_eq] at hb
  exact hb.1

/-- When no row survives cleaning, every artifact of the pipeline is
empty. -/
lemma outputs_of_cleanRows_nil (sw : List String) (docs : List (Option String))
    (h : cleanRows docs = []) :
    cleanWords sw docs = [] ∧ topPos sw docs = [] ∧ topNeg sw docs = [] ∧
      wordFreqTop sw docs = [] := by
  have hw : cleanWords sw docs = [] := by
    unfold cleanWords
    rw [h]
    rfl
  have hpf : pmiFiltered ([] : List String) = [] := by decide
  have hgc : groupCount ([] : List String) = [] := by decide
  refine ⟨hw, ?_, ?_, ?_⟩
  · unfold topPos rankPos
    rw [hw, hpf, List.mergeSort_nil]
    rfl
  · unfold topNeg rankNeg
    rw [hw, hpf, List.mergeSort_nil]
    rfl
  · unfold wordFreqTop
    rw [hw, hgc, List.mergeSort_nil]
    rfl

/-- Lexicon totals never fall below 1. -/
lemma one_le_lexTotal (lex ws : List String) : 1 ≤ lexTotal lex ws := by
  by_cases hs : (lexFiltered lex ws).length = 0
  · simp [lexTotal, hs]
  · simp only [lexTotal, if_neg hs]
    omega

/-! ### Claims on filtering, ranking and degenerate corpora -/

/-- C6: every row of both ranked output tables has context_count >= 5
(so a token with context_count 4 never appears), and a non-ambiguous
row with context_count exactly 5 survives the filter and is eligible
for ranking. -/
theorem C6_frequency_floor (sw : List String) (docs : List (Option String)) :
    (∀ row ∈ topPos sw docs, 5 ≤ row.context_count ∧ row.context_count ≠ 4) ∧
    (∀ row ∈ topNeg sw docs, 5 ≤ row.context_count ∧ row.context_count ≠ 4) ∧
    (∀ r ∈ pmiRows (cleanWords sw docs), r.context_count = 5 →
      ambiguousWords.contains r.word = false →
      r ∈ pmiFiltered (cleanWords sw docs)) := by
  refine ⟨?_, ?_, ?_⟩
  · intro row hrow
    unfold topPos at hrow
    rcases rankPos_from_filtered _ hrow with ⟨r, hr, he⟩
    have h5 := pmiFiltered_floor hr
    omega
  · intro row hrow
    unfold topNeg at hrow
    rcases rankNeg_from_filtered _ hrow with ⟨r, hr, he⟩
    have h5 := pmiFiltered_floor hr
    omega
  · intro r hr hc ha
    unfold pmiFiltered
    refine List.mem_filter.2 ⟨hr, ?_⟩
    simp [hc]
    simpa using ha

/-- Concrete document list for the ranking witness: one comment long
enough to survive cleaning, tokenizing to five copies of "hello". -/
def wdocs : List (Option String) := [some "hello hello hello hello hello"]

/-- The single output row the pipeline produces on `wdocs`. -/
noncomputable def wOut : OutRow :=
  ⟨"hello", 5, scoreOf (cleanWords [] wdocs) ⟨"hello", 5, 0, 0⟩⟩

lemma topPos_wdocs : topPos [] wdocs = [wOut] := by
  have h1 : pmiFiltered (cleanWords [] wdocs) = [⟨"hello", 5, 0, 0⟩] := by decide
  unfold topPos rankPos
  rw [h1, mergeSort_single]
  rfl

/-- Witness for C6 on `wdocs`, whose positive table is the single row
`wOut`. -/
theorem C6_frequency_floor_witness :
    wOut ∈ topPos [] wdocs ∧
    (5 ≤ wOut.context_count ∧ wOut.context_count ≠ 4) ∧
    (⟨"hello", 5, 0, 0⟩ : PmiRow) ∈ pmiRows (cleanWords [] wdocs) ∧
    (⟨"hello", 5, 0, 0⟩ : PmiRow) ∈ pmiFiltered (cleanWords [] wdocs) := by
  have hm : wOut ∈ topPos [] wdocs := by
    rw [topPos_wdocs]
    exact List.mem_singleton_self _
  exact ⟨hm, (C6_frequency_floor [] wdocs).1 wOut hm, by decide,
    (C6_frequency_floor [] wdocs).2.2 ⟨"hello", 5, 0, 0⟩ (by decide) rfl (by decide)⟩

/-- C7: when no document survives cleaning (in particular on an empty
corpus), the three output artifacts are empty result sets and the
lexicon totals default to 1; the pipeline functions are total, so no
exception path exists. -/
theorem C7_empty_corpus (sw : List String) (docs : List (Option String))
    (h : cleanRows docs = []) :
    topPos sw docs = [] ∧ topNeg sw docs = [] ∧ wordFreqTop sw docs = [] ∧
    lexTotal positiveWords (cleanWords sw docs) = 1 ∧
    lexTotal negativeWords (cleanWords sw docs) = 1 := by
  rcases outputs_of_cleanRows_nil sw docs h with ⟨hw, h1, h2, h3⟩
  rw [hw]
  exact ⟨h1, h2, h3, by decide, by decide⟩

/-- Witness for C7 at a corpus of one null row and one short comment. -/
theorem C7_empty_corpus_witness :
    cleanRows [none, some "tiny"] = [] ∧
    (topPos [] [none, some "tiny"] = [] ∧ topNeg [] [none, some "tiny"] = [] ∧
     wordFreqTop [] [none, some "tiny"] = [] ∧
     lexTotal positiveWords (cleanWords [] [none, some "tiny"]) = 1 ∧
     lexTotal negativeWords (cleanWords [] [none, some "tiny"]) = 1) :=
  ⟨by decide, C7_empty_corpus [] [none, some "tiny"] (by decide)⟩

/-- The two-document scenario corpus of the spec. -/
def scenarioDocs : List (Option String) :=
  [some "good game good", some "bad game bad"]

/-- C2 counterexample: the pipeline does not emit the six tokens
good, game, good, bad, game, bad on the scenario corpus.  Both comments
(14 and 12 characters) fail the `length > 20` row filter of lines 45-48,
so the token stream is empty and N = 0, not 6. -/
theorem C2_counterexample_not_six_tokens :
    cleanWords [] scenarioDocs = [] ∧
    totalTokens (cleanWords [] scenarioDocs) = 0 ∧
    cleanWords [] scenarioDocs ≠ ["good", "game", "good", "bad", "game", "bad"] := by
  decide

/-- C2 amended: on the scenario corpus the row-level cleaning filter
(comment length > 20) excludes both documents, so normalization emits no
tokens (N = 0), and the pipeline returns empty ranked result lists
rather than raising an error. -/
theorem C2_amended_scenario_empty (sw : List String) :
    cleanWords sw scenarioDocs = [] ∧
    totalTokens (cleanWords sw scenarioDocs) = 0 ∧
    topPos sw scenarioDocs = [] ∧ topNeg sw scenarioDocs = [] := by
  have h : cleanRows scenarioDocs = [] := by decide
  rcases outputs_of_cleanRows_nil sw scenarioDocs h with ⟨hw, h1, h2, _⟩
  refine ⟨hw, ?_, h1, h2⟩
  rw [hw]
  rfl

/-- C8: for a token with positive context_count and a zero lexicon
count, additive smoothing keeps the corresponding PMI column equal to
log2((alpha/N) / (p_w * p_class)) with a strictly positive log argument
(the real-number reading of "finite, never negative infinity or NaN"),
on both the negative and the positive side. -/
theorem C8_smoothing_keeps_pmi_finite (ws : List String) (w : String)
    (hc : 0 < contextCount ws w) :
    (lexCount negativeWords ws w = 0 →
      pmiNegative negativeWords ws w =
        Real.logb 2 (((alpha : ℝ) / (totalTokens ws : ℝ)) /
          (((contextCount ws w : ℝ) / (totalTokens ws : ℝ)) *
            ((lexTotal negativeWords ws : ℝ) / (totalTokens ws : ℝ)))) ∧
      0 < ((alpha : ℝ) / (totalTokens ws : ℝ)) /
          (((contextCount ws w : ℝ) / (totalTokens ws : ℝ)) *
            ((lexTotal negativeWords ws : ℝ) / (totalTokens ws : ℝ)))) ∧
    (lexCount positiveWords ws w = 0 →
      pmiPositive positiveWords ws w =
        Real.logb 2 (((alpha : ℝ) / (totalTokens ws : ℝ)) /
          (((contextCount ws w : ℝ) / (totalTokens ws : ℝ)) *
            ((lexTotal positiveWords ws : ℝ) / (totalTokens ws : ℝ)))) ∧
      0 < ((alpha : ℝ) / (totalTokens ws : ℝ)) /
          (((contextCount ws w : ℝ) / (totalTokens ws : ℝ)) *
            ((lexTotal positiveWords ws : ℝ) / (totalTokens ws : ℝ)))) := by
  have hN : (0 : ℝ) < (totalTokens ws : ℝ) := by
    have h1 : 0 < totalTokens ws :=
      lt_of_lt_of_le hc (List.count_le_length w ws)
    exact_mod_cast h1
  have hcR : (0 : ℝ) < (contextCount ws w : ℝ) := by exact_mod_cast hc
  have halpha : (0 : ℝ) < (alpha : ℝ) := by norm_num [alpha]
  have key : ∀ lex : List String, lexCount lex ws w = 0 →
      pmiNegative lex ws w =
        Real.logb 2 (((alpha : ℝ) / (totalTokens ws : ℝ)) /
          (((contextCount ws w : ℝ) / (totalTokens ws : ℝ)) *
            ((lexTotal lex ws : ℝ) / (totalTokens ws : ℝ)))) ∧
      0 < ((alpha : ℝ) / (totalTokens ws : ℝ)) /
          (((contextCount ws w : ℝ) / (totalTokens ws : ℝ)) *
            ((lexTotal lex ws : ℝ) / (totalTokens ws : ℝ))) := by
    intro lex h0
    have hQ : (0 : ℝ) < (lexTotal lex ws : ℝ) := by
      have h1 : 1 ≤ lexTotal lex ws := one_le_lexTotal lex ws
      have h2 : 0 < lexTotal lex ws := h1
      exact_mod_cast h2
    constructor
    · unfold pmiNegative
      rw [h0]
      norm_num
    · exact div_pos (div_pos halpha hN)
        (mul_pos (div_pos hcR hN) (div_pos hQ hN))
  refine ⟨key negativeWords, fun h0 => ?_⟩
  have hswap : pmiPositive positiveWords ws w = pmiNegative positiveWords ws w := rfl
  rw [hswap]
  exact key positiveWords h0

/-- Witness for C8 at a one-token stream whose token is in neither
lexicon. -/
theorem C8_smoothing_keeps_pmi_finite_witness :
    0 < contextCount ["hello"] "hello" ∧
    lexCount negativeWords ["hello"] "hello" = 0 ∧
    lexCount positiveWords ["hello"] "hello" = 0 ∧
    (pmiNegative negativeWords ["hello"] "hello" =
        Real.logb 2 (((alpha : ℝ) / (totalTokens ["hello"] : ℝ)) /
          (((contextCount ["hello"] "hello" : ℝ) / (totalTokens ["hello"] : ℝ)) *
            ((lexTotal negativeWords ["hello"] : ℝ) / (totalTokens ["hello"] : ℝ)))) ∧
      0 < ((alpha : ℝ) / (totalTokens ["hello"] : ℝ)) /
          (((contextCount ["hello"] "hello" : ℝ) / (totalTokens ["hello"] : ℝ)) *
            ((lexTotal negativeWords ["hello"] : ℝ) / (totalTokens ["hello"] : ℝ)))) ∧
    (pmiPositive positiveWords ["hello"] "hello" =
        Real.logb 2 (((alpha : ℝ) / (totalTokens ["hello"] : ℝ)) /
          (((contextCount ["hello"] "hello" : ℝ) / (totalTokens ["hello"] : ℝ)) *
            ((lexTotal positiveWords ["hello"] : ℝ) / (totalTokens ["hello"] : ℝ)))) ∧
      0 < ((alpha : ℝ) / (totalTokens ["hello"] : ℝ)) /
          (((contextCount ["hello"] "hello" : ℝ) / (totalTokens ["hello"] : ℝ)) *
            ((lexTotal positiveWords ["hello"] : ℝ) / (totalTokens ["hello"] : ℝ)))) :=
  ⟨by decide, by decide, by decide,
    (C8_smoothing_keeps_pmi_finite ["hello"] "hello" (by decide)).1 (by decide),
    (C8_smoothing_keeps_pmi_finite ["hello"] "hello" (by decide)).2 (by decide)⟩

/-- C10: a row whose comment is null, or whose comment has at most 20
characters (in particular exactly 20), contributes no tokens: removing
it leaves the token stream and every output artifact unchanged. -/
theorem C10_short_rows_contribute_nothing (sw : List String)
    (d : Option String) (docs1 docs2 : List (Option String))
    (h : d = none ∨ ∃ c, d = some c ∧ c.length ≤ 20) :
    cleanWords sw (docs1 ++ d :: docs2) = cleanWords sw (docs1 ++ docs2) ∧
    topPos sw (docs1 ++ d :: docs2) = topPos sw (docs1 ++ docs2) ∧
    topNeg sw (docs1 ++ d :: docs2) = topNeg sw (docs1 ++ docs2) ∧
    wordFreqTop sw (docs1 ++ d :: docs2) = wordFreqTop sw (docs1 ++ docs2) := by
  have hrows : cleanRows (docs1 ++ d :: docs2) = cleanRows (docs1 ++ docs2) := by
    unfold cleanRows
    rcases h with rfl | ⟨c, rfl, hlen⟩
    · simp [List.filterMap_append, List.filterMap_cons]
    · have hnot : ¬ (20 < c.length) := by omega
      simp [List.filterMap_append, List.filterMap_cons, List.filter_append,
        List.filter_cons, hnot]
  have hw : cleanWords sw (docs1 ++ d :: docs2) =
      cleanWords sw (docs1 ++ docs2) := by
    unfold cleanWords
    rw [hrows]
  refine ⟨hw, ?_, ?_, ?_⟩
  · unfold topPos
    rw [hw]
  · unfold topNeg
    rw [hw]
  · unfold wordFreqTop
    rw [hw]

/-- A comment of exactly 20 characters, for the C10 witness. -/
def w20 : String := "aaaaaaaaaaaaaaaaaaaa"

/-- Witness for C10: inserting an exactly-20-character comment before
`wdocs` changes nothing. -/
theorem C10_short_rows_contribute_nothing_witness :
    (some w20 = none ∨ ∃ c, some w20 = some c ∧ c.length ≤ 20) ∧
    cleanWords [] ([] ++ some w20 :: wdocs) = cleanWords [] ([] ++ wdocs) ∧
    topPos [] ([] ++ some w20 :: wdocs) = topPos [] ([] ++ wdocs) ∧
    topNeg [] ([] ++ some w20 :: wdocs) = topNeg [] ([] ++ wdocs) ∧
    wordFreqTop [] ([] ++ some w20 :: wdocs) = wordFreqTop [] ([] ++ wdocs) :=
  ⟨Or.inr ⟨w20, rfl, by decide⟩,
    C10_short_rows_contribute_nothing [] (some w20) [] wdocs
      (Or.inr ⟨w20, rfl, by decide⟩)⟩

end PmiReddit
